import Mathlib

/-!
Shallow embedding of `pkg/operator/controller/ingress/deployment-strategy.go`
from the cluster-ingress-operator repository, together with theorems checking
the natural-language specification against it.

Go pointers that may be nil are modelled as `Option`; Go string-typed enum
constants (`operatorv1.EndpointPublishingStrategyType`,
`configv1.TopologyMode`, ...) are modelled as `String` with the constant
values of the upstream API packages; the Go `int32` replica count is
modelled as `Int` (no arithmetic is performed on it, only comparison, so
wrap-around is irrelevant).  The function `foo` mutates its `deployment`
argument through a pointer and can dereference a nil
`Status.EndpointPublishingStrategy`; it is embedded as a function returning
the updated deployment paired with `Option Bool`: `some b` is a normal
return of `b`, `none` is the nil-dereference fault (the replica write that
precedes the fault is still visible in the returned deployment, matching
Go's by-pointer mutation).
-/

namespace ClusterIngress

/-- `operatorv1.HostNetworkStrategyType` from the openshift API package. -/
def HostNetworkStrategyType : String := "HostNetwork"

/-- `operatorv1.PrivateStrategyType` from the openshift API package. -/
def PrivateStrategyType : String := "Private"

/-- `operatorv1.LoadBalancerServiceStrategyType` from the openshift API package. -/
def LoadBalancerServiceStrategyType : String := "LoadBalancerService"

/-- `operatorv1.NodePortServiceStrategyType` from the openshift API package. -/
def NodePortServiceStrategyType : String := "NodePortService"

/-- `configv1.SingleReplicaTopologyMode` from the openshift API package. -/
def SingleReplicaTopologyMode : String := "SingleReplica"

/-- `configv1.HighlyAvailableTopologyMode` from the openshift API package. -/
def HighlyAvailableTopologyMode : String := "HighlyAvailable"

/-- `configv1.DefaultPlacementControlPlane` from the openshift API package. -/
def DefaultPlacementControlPlane : String := "ControlPlane"

/-- `appsv1.RollingUpdateDeploymentStrategyType` from the Kubernetes API. -/
def RollingUpdateDeploymentStrategyType : String := "RollingUpdate"

/-- `metav1.LabelSelectorOpIn` from the Kubernetes API. -/
def LabelSelectorOpIn : String := "In"

/-- `metav1.LabelSelectorOpNotIn` from the Kubernetes API. -/
def LabelSelectorOpNotIn : String := "NotIn"

/-- Modelled from the spec: the label key `controller.ControllerDeploymentLabel`
of the operator's controller package, marking the pods of an ingress
controller's deployment.  Its concrete value is opaque to this file. -/
def ControllerDeploymentLabel : String :=
  "ingresscontroller.operator.openshift.io/deployment-ingresscontroller"

/-- Modelled from the spec: the label key `controller.ControllerDeploymentHashLabel`
of the operator's controller package, the generation-hash label distinguishing
rollout generations.  Its concrete value is opaque to this file. -/
def ControllerDeploymentHashLabel : String :=
  "ingresscontroller.operator.openshift.io/hash"

/-- `intstr.IntOrString`: the Kubernetes percentage-or-absolute union type. -/
inductive IntOrString where
  | int (value : Int)
  | str (value : String)
deriving DecidableEq, Repr

/-- The part of `operatorv1.IngressControllerSpec` this code reads:
`Replicas *int32`. -/
structure IngressControllerSpec where
  replicas : Option Int
deriving DecidableEq, Repr

/-- The part of `operatorv1.EndpointPublishingStrategy` this code reads. -/
structure EndpointPublishingStrategy where
  type : String
deriving DecidableEq, Repr

/-- The part of `operatorv1.IngressControllerStatus` this code reads:
`EndpointPublishingStrategy` is a pointer, hence `Option`. -/
structure IngressControllerStatus where
  endpointPublishingStrategy : Option EndpointPublishingStrategy
deriving DecidableEq, Repr

/-- The part of `operatorv1.IngressController` this code reads. -/
structure IngressController where
  name : String
  spec : IngressControllerSpec
  status : IngressControllerStatus
deriving DecidableEq, Repr

/-- The part of `configv1.IngressStatus` this code reads. -/
structure IngressStatus where
  defaultPlacement : String
deriving DecidableEq, Repr

/-- The part of `configv1.Ingress` this code reads. -/
structure Ingress where
  status : IngressStatus
deriving DecidableEq, Repr

/-- The part of `configv1.InfrastructureStatus` this code reads. -/
structure InfrastructureStatus where
  infrastructureTopology : String
  controlPlaneTopology : String
deriving DecidableEq, Repr

/-- The part of `configv1.Infrastructure` this code reads. -/
structure Infrastructure where
  status : InfrastructureStatus
deriving DecidableEq, Repr

/-- `metav1.LabelSelectorRequirement`; `Values []string` is a slice that the
code may leave nil ("unset"), hence `Option (List String)`. -/
structure LabelSelectorRequirement where
  key : String
  operator : String
  values : Option (List String)
deriving DecidableEq, Repr

/-- The part of `metav1.LabelSelector` this code writes. -/
structure LabelSelector where
  matchExpressions : List LabelSelectorRequirement
deriving DecidableEq, Repr

/-- `corev1.PodAffinityTerm` (the fields this code writes). -/
structure PodAffinityTerm where
  topologyKey : String
  labelSelector : Option LabelSelector
deriving DecidableEq, Repr

/-- `corev1.WeightedPodAffinityTerm`. -/
structure WeightedPodAffinityTerm where
  weight : Int
  podAffinityTerm : PodAffinityTerm
deriving DecidableEq, Repr

/-- `corev1.PodAffinity` (the field this code writes). -/
structure PodAffinity where
  preferredDuringSchedulingIgnoredDuringExecution : List WeightedPodAffinityTerm
deriving DecidableEq, Repr

/-- `corev1.PodAntiAffinity` (the field this code writes). -/
structure PodAntiAffinity where
  requiredDuringSchedulingIgnoredDuringExecution : List PodAffinityTerm
deriving DecidableEq, Repr

/-- `corev1.Affinity`. -/
structure Affinity where
  podAffinity : Option PodAffinity
  podAntiAffinity : Option PodAntiAffinity
deriving DecidableEq, Repr

/-- `appsv1.RollingUpdateDeployment`: both fields are pointers in Go. -/
structure RollingUpdateDeployment where
  maxUnavailable : Option IntOrString
  maxSurge : Option IntOrString
deriving DecidableEq, Repr

/-- `appsv1.DeploymentStrategy`: `RollingUpdate` is a pointer in Go. -/
structure DeploymentStrategy where
  type : String
  rollingUpdate : Option RollingUpdateDeployment
deriving DecidableEq, Repr

/-- The part of `corev1.PodSpec` this code writes. -/
structure PodSpec where
  affinity : Option Affinity
deriving DecidableEq, Repr

/-- The part of `corev1.PodTemplateSpec` this code writes. -/
structure PodTemplateSpec where
  spec : PodSpec
deriving DecidableEq, Repr

/-- The part of `appsv1.DeploymentSpec` this code writes. -/
structure DeploymentSpec where
  replicas : Option Int
  strategy : DeploymentStrategy
  template : PodTemplateSpec
deriving DecidableEq, Repr

/-- `appsv1.Deployment` (the part this code writes). -/
structure Deployment where
  spec : DeploymentSpec
deriving DecidableEq, Repr

/-- `singleReplica` from deployment-strategy.go: pick the topology field that
`DefaultPlacement` selects and compare it with the single-replica mode. -/
def singleReplica (ingressConfig : Ingress) (infraConfig : Infrastructure) : Bool :=
  let topology :=
    if ingressConfig.status.defaultPlacement = DefaultPlacementControlPlane then
      infraConfig.status.controlPlaneTopology
    else
      infraConfig.status.infrastructureTopology
  decide (topology = SingleReplicaTopologyMode)

/-- `determineDeploymentReplicas` from deployment-strategy.go.  The external
default-replica policy `DetermineReplicas` is defined elsewhere in the
repository, outside this file's sources; it is taken as a parameter. -/
def determineDeploymentReplicas (DetermineReplicas : Ingress → Infrastructure → Int)
    (ic : IngressController) (ingressConfig : Ingress) (infraConfig : Infrastructure) : Int :=
  match ic.spec.replicas with
  | some r => r
  | none => DetermineReplicas ingressConfig infraConfig

/-- The affinity record built in the `Private`/`LoadBalancerService`/
`NodePortService` arm of `foo` (deployment-strategy.go lines 86-136),
verbatim: one preferred pod-affinity term and one required pod-anti-affinity
term, both keyed on the node hostname; the generation-hash requirement's
`Values` is left unset (`none`) in both. -/
def ingressAffinity (ci : IngressController) (deploymentLabelValue : IngressController → String) : Affinity :=
  { podAffinity := some
      { preferredDuringSchedulingIgnoredDuringExecution :=
          [ { weight := 100
              , podAffinityTerm :=
                { topologyKey := "kubernetes.io/hostname"
                  , labelSelector := some
                    { matchExpressions :=
                        [ { key := ControllerDeploymentLabel
                            , operator := LabelSelectorOpIn
                            , values := some [deploymentLabelValue ci] }
                        , { key := ControllerDeploymentHashLabel
                            , operator := LabelSelectorOpNotIn
                            , values := none } ] } } } ] }
    , podAntiAffinity := some
      { requiredDuringSchedulingIgnoredDuringExecution :=
          [ { topologyKey := "kubernetes.io/hostname"
              , labelSelector := some
                { matchExpressions :=
                    [ { key := ControllerDeploymentLabel
                        , operator := LabelSelectorOpIn
                        , values := some [deploymentLabelValue ci] }
                    , { key := ControllerDeploymentHashLabel
                        , operator := LabelSelectorOpIn
                        , values := none } ] } } ] } }

/-- Modelled from the spec: `controller.IngressControllerDeploymentLabel`
of the operator's controller package derives a deployment label value from
the ingress controller; the spec only says it identifies "this ingress
controller's deployment", so it is modelled as the controller's name. -/
def IngressControllerDeploymentLabel (ci : IngressController) : String :=
  ci.name

/-- `foo` from deployment-strategy.go.  `DetermineReplicas` is the external
default-replica policy (see `determineDeploymentReplicas`).  Returns the
updated deployment and `some configureAffinity` on a normal return, or the
deployment as updated so far and `none` on the nil dereference of
`ci.Status.EndpointPublishingStrategy`. -/
def foo (DetermineReplicas : Ingress → Infrastructure → Int)
    (ci : IngressController) (deployment : Deployment)
    (ingressConfig : Ingress) (infraConfig : Infrastructure) :
    Deployment × Option Bool :=
  let desiredReplicas := determineDeploymentReplicas DetermineReplicas ci ingressConfig infraConfig
  let deployment :=
    { deployment with spec := { deployment.spec with replicas := some desiredReplicas } }
  if singleReplica ingressConfig infraConfig then
    (deployment, some false)
  else
    match ci.status.endpointPublishingStrategy with
    | none => (deployment, none)
    | some eps =>
      if eps.type = HostNetworkStrategyType then
        ({ deployment with spec := { deployment.spec with strategy :=
            { type := RollingUpdateDeploymentStrategyType
              , rollingUpdate := some
                { maxUnavailable := some (IntOrString.str "25%")
                  , maxSurge := some (IntOrString.int 0) } } } }
          , some false)
      else if eps.type = PrivateStrategyType ∨ eps.type = LoadBalancerServiceStrategyType ∨
          eps.type = NodePortServiceStrategyType then
        let maxUnavailable := if desiredReplicas ≥ 4 then "25%" else "50%"
        ({ deployment with spec := { deployment.spec with
            strategy :=
              { type := RollingUpdateDeploymentStrategyType
                , rollingUpdate := some
                  { maxUnavailable := some (IntOrString.str maxUnavailable)
                    , maxSurge := some (IntOrString.str "25%") } }
            , template := { deployment.spec.template with
                spec := { deployment.spec.template.spec with
                  affinity := some (ingressAffinity ci IngressControllerDeploymentLabel) } } } }
          , some true)
      else
        (deployment, some false)

/-- The Topology Classifier as the spec words it (§4.1): a function of the
placement preference and the two topology fields, used only to compare with
`singleReplica`. -/
def isSingleReplicaSpec (placementPreference controlPlaneTopology dataPlaneTopology : String) : Bool :=
  decide
    ((if placementPreference = DefaultPlacementControlPlane then controlPlaneTopology
      else dataPlaneTopology)
      = SingleReplicaTopologyMode)

/-- A sample ingress config: empty default placement (data-plane governs). -/
def exIngress : Ingress := ⟨⟨""⟩⟩

/-- A sample infrastructure: both topologies highly available. -/
def exInfraHA : Infrastructure := ⟨⟨HighlyAvailableTopologyMode, HighlyAvailableTopologyMode⟩⟩

/-- A sample infrastructure: both topologies single-replica. -/
def exInfraSR : Infrastructure := ⟨⟨SingleReplicaTopologyMode, SingleReplicaTopologyMode⟩⟩

/-- A sample ingress controller with explicit replicas 3 and the given
endpoint publishing strategy type. -/
def exCI (t : String) : IngressController := ⟨"default", ⟨some 3⟩, ⟨some ⟨t⟩⟩⟩

/-- A sample ingress controller with no explicit replicas and no endpoint
publishing strategy in its status. -/
def exCInoEPS : IngressController := ⟨"default", ⟨none⟩, ⟨none⟩⟩

/-- A sample caller-supplied deployment with empty strategy and no affinity. -/
def exDep : Deployment := ⟨⟨none, ⟨"", none⟩, ⟨⟨none⟩⟩⟩⟩

/-- A sample caller-supplied deployment that already carries an affinity
record and a rolling-update record with nonzero surge. -/
def exDepDirty : Deployment :=
  ⟨⟨none, ⟨RollingUpdateDeploymentStrategyType, some ⟨none, some (IntOrString.int 1)⟩⟩,
    ⟨⟨some ⟨none, none⟩⟩⟩⟩⟩

/-- A sample external default-replica policy returning 2. -/
def exDR : Ingress → Infrastructure → Int := fun _ _ => 2

/-- C6: the resolved replica count is written to the output deployment's
replica field unconditionally, in every branch of `foo` — including the
single-replica short circuit, the unrecognized-strategy-type branch, and
even the faulting nil-strategy path. -/
theorem foo_sets_replicas (DR : Ingress → Infrastructure → Int)
    (ci : IngressController) (dep : Deployment) (ing : Ingress) (infra : Infrastructure) :
    (foo DR ci dep ing infra).1.spec.replicas =
      some (determineDeploymentReplicas DR ci ing infra) := by
  unfold foo
  dsimp only
  split
  · rfl
  · split
    · rfl
    · split
      · rfl
      · split
        · rfl
        · rfl

/-- C7: an explicit replica count in the ingress controller's spec is
returned unchanged, for any external default-replica policy (which is
therefore not consulted); when absent, the result is exactly what the
external policy returns on the same topology snapshot. -/
theorem determineDeploymentReplicas_explicit_wins
    (ic : IngressController) (ing : Ingress) (infra : Infrastructure) :
    (∀ r, ic.spec.replicas = some r →
      ∀ DR, determineDeploymentReplicas DR ic ing infra = r) ∧
    (ic.spec.replicas = none →
      ∀ DR, determineDeploymentReplicas DR ic ing infra = DR ing infra) := by
  constructor
  · intro r hr DR
    simp [determineDeploymentReplicas, hr]
  · intro hr DR
    simp [determineDeploymentReplicas, hr]

/-- Witness for `determineDeploymentReplicas_explicit_wins` at concrete
inputs: explicit replicas 3 win over a policy returning 2; with no explicit
replicas the policy's 2 is returned. -/
theorem determineDeploymentReplicas_explicit_wins_witness :
    ((exCI PrivateStrategyType).spec.replicas = some 3 ∧
      determineDeploymentReplicas exDR (exCI PrivateStrategyType) exIngress exInfraHA = 3) ∧
    (exCInoEPS.spec.replicas = none ∧
      determineDeploymentReplicas exDR exCInoEPS exIngress exInfraHA = exDR exIngress exInfraHA) :=
  ⟨⟨rfl, (determineDeploymentReplicas_explicit_wins (exCI PrivateStrategyType) exIngress
      exInfraHA).1 3 rfl exDR⟩,
    ⟨rfl, (determineDeploymentReplicas_explicit_wins exCInoEPS exIngress
      exInfraHA).2 rfl exDR⟩⟩

/-- C4: `singleReplica` agrees with the spec's topology classifier (select
the control-plane topology when placement prefers the control plane, the
infrastructure topology otherwise, and compare with the single-replica mode;
any other topology value yields false), and whenever it holds, `foo` only
writes the replica count and returns false: strategy and affinity are left
exactly as supplied (platform default, no override), for any strategy type. -/
theorem foo_single_replica_default (DR : Ingress → Infrastructure → Int)
    (ci : IngressController) (dep : Deployment) (ing : Ingress) (infra : Infrastructure) :
    singleReplica ing infra =
      isSingleReplicaSpec ing.status.defaultPlacement infra.status.controlPlaneTopology
        infra.status.infrastructureTopology ∧
    (singleReplica ing infra = true →
      foo DR ci dep ing infra =
        ({ dep with spec := { dep.spec with
            replicas := some (determineDeploymentReplicas DR ci ing infra) } }, some false)) := by
  refine ⟨rfl, ?_⟩
  intro h
  simp [foo, h]

/-- Witness for `foo_single_replica_default`: a single-replica infrastructure
snapshot short-circuits `foo` for a LoadBalancerService controller. -/
theorem foo_single_replica_default_witness :
    singleReplica exIngress exInfraSR = true ∧
    foo exDR (exCI LoadBalancerServiceStrategyType) exDep exIngress exInfraSR =
      ({ exDep with spec := { exDep.spec with
          replicas := some (determineDeploymentReplicas exDR
            (exCI LoadBalancerServiceStrategyType) exIngress exInfraSR) } }, some false) :=
  ⟨by decide,
    (foo_single_replica_default exDR (exCI LoadBalancerServiceStrategyType) exDep exIngress
      exInfraSR).2 (by decide)⟩

/-- C5: for HostNetwork with a non-single-replica topology, `foo` sets a
rolling update strategy with maxUnavailable 25% (percentage) and maxSurge 0
(absolute), attaches no affinity (the template is untouched and the returned
flag is false), for any replica count and any placement preference. -/
theorem foo_hostNetwork_strategy (DR : Ingress → Infrastructure → Int)
    (ci : IngressController) (dep : Deployment) (ing : Ingress) (infra : Infrastructure)
    (eps : EndpointPublishingStrategy)
    (hs : singleReplica ing infra = false)
    (he : ci.status.endpointPublishingStrategy = some eps)
    (ht : eps.type = HostNetworkStrategyType) :
    foo DR ci dep ing infra =
      ({ dep with spec := { dep.spec with
          replicas := some (determineDeploymentReplicas DR ci ing infra)
          , strategy :=
            { type := RollingUpdateDeploymentStrategyType
              , rollingUpdate := some
                { maxUnavailable := some (IntOrString.str "25%")
                  , maxSurge := some (IntOrString.int 0) } } } }, some false) := by
  simp [foo, hs, he, ht]

/-- Witness for `foo_hostNetwork_strategy` at a concrete HostNetwork input. -/
theorem foo_hostNetwork_strategy_witness :
    singleReplica exIngress exInfraHA = false ∧
    (exCI HostNetworkStrategyType).status.endpointPublishingStrategy =
      some ⟨HostNetworkStrategyType⟩ ∧
    foo exDR (exCI HostNetworkStrategyType) exDep exIngress exInfraHA =
      ({ exDep with spec := { exDep.spec with
          replicas := some (determineDeploymentReplicas exDR (exCI HostNetworkStrategyType)
            exIngress exInfraHA)
          , strategy :=
            { type := RollingUpdateDeploymentStrategyType
              , rollingUpdate := some
                { maxUnavailable := some (IntOrString.str "25%")
                  , maxSurge := some (IntOrString.int 0) } } } }, some false) :=
  ⟨by decide, rfl,
    foo_hostNetwork_strategy exDR (exCI HostNetworkStrategyType) exDep exIngress exInfraHA
      ⟨HostNetworkStrategyType⟩ (by decide) rfl rfl⟩

/-- C8: for a strategy type that is none of HostNetwork, Private,
LoadBalancerService or NodePortService, with a non-single-replica topology,
`foo` writes only the replica count: the caller-supplied strategy and
affinity are left exactly as supplied and the returned flag is false. -/
theorem foo_unrecognized_no_override (DR : Ingress → Infrastructure → Int)
    (ci : IngressController) (dep : Deployment) (ing : Ingress) (infra : Infrastructure)
    (eps : EndpointPublishingStrategy)
    (hs : singleReplica ing infra = false)
    (he : ci.status.endpointPublishingStrategy = some eps)
    (h1 : eps.type ≠ HostNetworkStrategyType)
    (h2 : eps.type ≠ PrivateStrategyType)
    (h3 : eps.type ≠ LoadBalancerServiceStrategyType)
    (h4 : eps.type ≠ NodePortServiceStrategyType) :
    foo DR ci dep ing infra =
      ({ dep with spec := { dep.spec with
          replicas := some (determineDeploymentReplicas DR ci ing infra) } }, some false) := by
  simp [foo, hs, he, h1, h2, h3, h4]

/-- Witness for `foo_unrecognized_no_override` at a strategy type unknown to
the decision table. -/
theorem foo_unrecognized_no_override_witness :
    singleReplica exIngress exInfraHA = false ∧
    (exCI "FancyNewStrategy").status.endpointPublishingStrategy =
      some ⟨"FancyNewStrategy"⟩ ∧
    foo exDR (exCI "FancyNewStrategy") exDep exIngress exInfraHA =
      ({ exDep with spec := { exDep.spec with
          replicas := some (determineDeploymentReplicas exDR (exCI "FancyNewStrategy")
            exIngress exInfraHA) } }, some false) :=
  ⟨by decide, rfl,
    foo_unrecognized_no_override exDR (exCI "FancyNewStrategy") exDep exIngress exInfraHA
      ⟨"FancyNewStrategy"⟩ (by decide) rfl (by decide) (by decide) (by decide) (by decide)⟩

/-- C9: `foo` is total on its declared domain: whenever the topology is
single-replica or the status's endpoint publishing strategy is present, the
computation returns normally (no fault path is reachable). -/
theorem foo_total (DR : Ingress → Infrastructure → Int)
    (ci : IngressController) (dep : Deployment) (ing : Ingress) (infra : Infrastructure)
    (h : singleReplica ing infra = true ∨ ci.status.endpointPublishingStrategy ≠ none) :
    ∃ b, (foo DR ci dep ing infra).2 = some b := by
  rcases h with h | h
  · exact ⟨false, by simp [foo, h]⟩
  · cases heps : ci.status.endpointPublishingStrategy with
    | none => exact absurd heps h
    | some eps =>
      unfold foo
      dsimp only
      split
      · exact ⟨false, rfl⟩
      · rw [heps]
        dsimp only
        split
        · exact ⟨false, rfl⟩
        · split
          · exact ⟨true, rfl⟩
          · exact ⟨false, rfl⟩

/-- Witness for `foo_total` at a concrete input with the strategy present. -/
theorem foo_total_witness :
    (singleReplica exIngress exInfraHA = true ∨
      (exCI PrivateStrategyType).status.endpointPublishingStrategy ≠ none) ∧
    ∃ b, (foo exDR (exCI PrivateStrategyType) exDep exIngress exInfraHA).2 = some b :=
  ⟨Or.inr (by decide),
    foo_total exDR (exCI PrivateStrategyType) exDep exIngress exInfraHA (Or.inr (by decide))⟩

/-- C1: for Private, LoadBalancerService or NodePortService with a
non-single-replica topology, `foo` sets a rolling update strategy with
maxSurge 25% (percentage) and maxUnavailable 50% when the resolved replica
count is below 4 and 25% from 4 replicas on (the boundary is inclusive at
4 on the 25% side). -/
theorem foo_family_rolling_update (DR : Ingress → Infrastructure → Int)
    (ci : IngressController) (dep : Deployment) (ing : Ingress) (infra : Infrastructure)
    (eps : EndpointPublishingStrategy)
    (hs : singleReplica ing infra = false)
    (he : ci.status.endpointPublishingStrategy = some eps)
    (ht : eps.type = PrivateStrategyType ∨ eps.type = LoadBalancerServiceStrategyType ∨
      eps.type = NodePortServiceStrategyType) :
    (foo DR ci dep ing infra).1.spec.strategy.type = RollingUpdateDeploymentStrategyType ∧
    ∃ ru, (foo DR ci dep ing infra).1.spec.strategy.rollingUpdate = some ru ∧
      ru.maxSurge = some (IntOrString.str "25%") ∧
      (determineDeploymentReplicas DR ci ing infra < 4 →
        ru.maxUnavailable = some (IntOrString.str "50%")) ∧
      (4 ≤ determineDeploymentReplicas DR ci ing infra →
        ru.maxUnavailable = some (IntOrString.str "25%")) := by
  have h1 : eps.type ≠ HostNetworkStrategyType := by
    rcases ht with h | h | h <;> rw [h] <;> decide
  simp only [foo, hs, he, h1, ht, Bool.false_eq_true, if_false, if_neg h1, if_pos ht]
  refine ⟨rfl, _, rfl, rfl, ?_, ?_⟩
  · intro hlt
    rw [if_neg (by omega)]
  · intro hge
    rw [if_pos hge]

/-- Witness for `foo_family_rolling_update` with explicit replicas 3. -/
theorem foo_family_rolling_update_witness :
    singleReplica exIngress exInfraHA = false ∧
    (exCI NodePortServiceStrategyType).status.endpointPublishingStrategy =
      some ⟨NodePortServiceStrategyType⟩ ∧
    ((foo exDR (exCI NodePortServiceStrategyType) exDep exIngress
        exInfraHA).1.spec.strategy.type = RollingUpdateDeploymentStrategyType ∧
      ∃ ru, (foo exDR (exCI NodePortServiceStrategyType) exDep exIngress
          exInfraHA).1.spec.strategy.rollingUpdate = some ru ∧
        ru.maxSurge = some (IntOrString.str "25%") ∧
        (determineDeploymentReplicas exDR (exCI NodePortServiceStrategyType) exIngress
            exInfraHA < 4 →
          ru.maxUnavailable = some (IntOrString.str "50%")) ∧
        (4 ≤ determineDeploymentReplicas exDR (exCI NodePortServiceStrategyType) exIngress
            exInfraHA →
          ru.maxUnavailable = some (IntOrString.str "25%"))) :=
  ⟨by decide, rfl,
    foo_family_rolling_update exDR (exCI NodePortServiceStrategyType) exDep exIngress exInfraHA
      ⟨NodePortServiceStrategyType⟩ (by decide) rfl (Or.inr (Or.inr rfl))⟩

/-- C2: for Private, LoadBalancerService or NodePortService with a
non-single-replica topology, `foo` attaches an affinity record with exactly
one preferred pod-affinity term (weight 100, node-hostname topology key, a
generation-hash requirement with operator NotIn and Values unset) and
exactly one required pod-anti-affinity term (same topology key, a
generation-hash requirement with operator In and Values unset), and
returns true. -/
theorem foo_family_affinity_terms (DR : Ingress → Infrastructure → Int)
    (ci : IngressController) (dep : Deployment) (ing : Ingress) (infra : Infrastructure)
    (eps : EndpointPublishingStrategy)
    (hs : singleReplica ing infra = false)
    (he : ci.status.endpointPublishingStrategy = some eps)
    (ht : eps.type = PrivateStrategyType ∨ eps.type = LoadBalancerServiceStrategyType ∨
      eps.type = NodePortServiceStrategyType) :
    (foo DR ci dep ing infra).2 = some true ∧
    ∃ a, (foo DR ci dep ing infra).1.spec.template.spec.affinity = some a ∧
      (∃ pa w, a.podAffinity = some pa ∧
        pa.preferredDuringSchedulingIgnoredDuringExecution = [w] ∧
        w.weight = 100 ∧
        w.podAffinityTerm.topologyKey = "kubernetes.io/hostname" ∧
        ∃ ls, w.podAffinityTerm.labelSelector = some ls ∧
          { key := ControllerDeploymentHashLabel, operator := LabelSelectorOpNotIn,
            values := none } ∈ ls.matchExpressions) ∧
      (∃ pan t, a.podAntiAffinity = some pan ∧
        pan.requiredDuringSchedulingIgnoredDuringExecution = [t] ∧
        t.topologyKey = "kubernetes.io/hostname" ∧
        ∃ ls, t.labelSelector = some ls ∧
          { key := ControllerDeploymentHashLabel, operator := LabelSelectorOpIn,
            values := none } ∈ ls.matchExpressions) := by
  have h1 : eps.type ≠ HostNetworkStrategyType := by
    rcases ht with h | h | h <;> rw [h] <;> decide
  simp only [foo, hs, he, Bool.false_eq_true, if_false, if_neg h1, if_pos ht, ingressAffinity]
  refine ⟨trivial, _, rfl, ⟨_, _, rfl, rfl, rfl, rfl, _, rfl, ?_⟩, _, _, rfl, rfl, rfl, _, rfl, ?_⟩
  · exact List.mem_cons_of_mem _ (List.mem_cons_self _ _)
  · exact List.mem_cons_of_mem _ (List.mem_cons_self _ _)

/-- Witness for `foo_family_affinity_terms` at a concrete Private input. -/
theorem foo_family_affinity_terms_witness :
    singleReplica exIngress exInfraHA = false ∧
    (exCI PrivateStrategyType).status.endpointPublishingStrategy =
      some ⟨PrivateStrategyType⟩ ∧
    ((foo exDR (exCI PrivateStrategyType) exDep exIngress exInfraHA).2 = some true ∧
    ∃ a, (foo exDR (exCI PrivateStrategyType) exDep exIngress
        exInfraHA).1.spec.template.spec.affinity = some a ∧
      (∃ pa w, a.podAffinity = some pa ∧
        pa.preferredDuringSchedulingIgnoredDuringExecution = [w] ∧
        w.weight = 100 ∧
        w.podAffinityTerm.topologyKey = "kubernetes.io/hostname" ∧
        ∃ ls, w.podAffinityTerm.labelSelector = some ls ∧
          { key := ControllerDeploymentHashLabel, operator := LabelSelectorOpNotIn,
            values := none } ∈ ls.matchExpressions) ∧
      (∃ pan t, a.podAntiAffinity = some pan ∧
        pan.requiredDuringSchedulingIgnoredDuringExecution = [t] ∧
        t.topologyKey = "kubernetes.io/hostname" ∧
        ∃ ls, t.labelSelector = some ls ∧
          { key := ControllerDeploymentHashLabel, operator := LabelSelectorOpIn,
            values := none } ∈ ls.matchExpressions)) :=
  ⟨by decide, rfl,
    foo_family_affinity_terms exDR (exCI PrivateStrategyType) exDep exIngress exInfraHA
      ⟨PrivateStrategyType⟩ (by decide) rfl (Or.inl rfl)⟩

/-- C10: whenever `foo` reports that an affinity policy was attached, both
the (single) preferred pod-affinity term and the (single) required
pod-anti-affinity term carry a requirement with operator In on the
controller-deployment label whose Values list is exactly the one-element
list holding this ingress controller's deployment label, so both rules only
match pods of the same ingress controller's deployment. -/
theorem foo_affinity_selects_own_deployment (DR : Ingress → Infrastructure → Int)
    (ci : IngressController) (dep : Deployment) (ing : Ingress) (infra : Infrastructure)
    (h : (foo DR ci dep ing infra).2 = some true) :
    ∃ a, (foo DR ci dep ing infra).1.spec.template.spec.affinity = some a ∧
      (∃ pa w, a.podAffinity = some pa ∧
        pa.preferredDuringSchedulingIgnoredDuringExecution = [w] ∧
        ∃ ls, w.podAffinityTerm.labelSelector = some ls ∧
          { key := ControllerDeploymentLabel, operator := LabelSelectorOpIn,
            values := some [IngressControllerDeploymentLabel ci] } ∈ ls.matchExpressions) ∧
      (∃ pan t, a.podAntiAffinity = some pan ∧
        pan.requiredDuringSchedulingIgnoredDuringExecution = [t] ∧
        ∃ ls, t.labelSelector = some ls ∧
          { key := ControllerDeploymentLabel, operator := LabelSelectorOpIn,
            values := some [IngressControllerDeploymentLabel ci] } ∈ ls.matchExpressions) := by
  revert h
  unfold foo
  dsimp only
  split
  · intro h
    simp at h
  · split
    · intro h
      simp at h
    · split
      · intro h
        simp at h
      · split
        · intro _
          simp only [ingressAffinity]
          exact ⟨_, rfl, ⟨_, _, rfl, rfl, _, rfl, List.mem_cons_self _ _⟩,
            _, _, rfl, rfl, _, rfl, List.mem_cons_self _ _⟩
        · intro h
          simp at h

/-- Witness for `foo_affinity_selects_own_deployment` at a concrete
LoadBalancerService input. -/
theorem foo_affinity_selects_own_deployment_witness :
    (foo exDR (exCI LoadBalancerServiceStrategyType) exDep exIngress exInfraHA).2 =
      some true ∧
    ∃ a, (foo exDR (exCI LoadBalancerServiceStrategyType) exDep exIngress
        exInfraHA).1.spec.template.spec.affinity = some a ∧
      (∃ pa w, a.podAffinity = some pa ∧
        pa.preferredDuringSchedulingIgnoredDuringExecution = [w] ∧
        ∃ ls, w.podAffinityTerm.labelSelector = some ls ∧
          { key := ControllerDeploymentLabel, operator := LabelSelectorOpIn,
            values := some [IngressControllerDeploymentLabel
              (exCI LoadBalancerServiceStrategyType)] } ∈ ls.matchExpressions) ∧
      (∃ pan t, a.podAntiAffinity = some pan ∧
        pan.requiredDuringSchedulingIgnoredDuringExecution = [t] ∧
        ∃ ls, t.labelSelector = some ls ∧
          { key := ControllerDeploymentLabel, operator := LabelSelectorOpIn,
            values := some [IngressControllerDeploymentLabel
              (exCI LoadBalancerServiceStrategyType)] } ∈ ls.matchExpressions) :=
  ⟨by decide,
    foo_affinity_selects_own_deployment exDR (exCI LoadBalancerServiceStrategyType) exDep
      exIngress exInfraHA (by decide)⟩

/-- C3 counterexample: with a caller-supplied deployment that already has an
affinity record, a HostNetwork controller on a non-single-replica topology
returns the flag false yet leaves the affinity record present in the output,
so "affinity is absent for HostNetwork" fails as a statement about every
input. -/
theorem foo_affinity_iff_counterexample :
    singleReplica exIngress exInfraHA = false ∧
    (exCI HostNetworkStrategyType).status.endpointPublishingStrategy =
      some ⟨HostNetworkStrategyType⟩ ∧
    (foo exDR (exCI HostNetworkStrategyType) exDepDirty exIngress exInfraHA).2 = some false ∧
    (foo exDR (exCI HostNetworkStrategyType) exDepDirty exIngress
      exInfraHA).1.spec.template.spec.affinity ≠ none := by
  decide

/-- C3 amended: provided the caller-supplied deployment has no affinity and
no rolling-update record, then on every normal return (d, b) of `foo`:
the output affinity is present iff b is true; b is true iff the strategy
type is Private, LoadBalancerService or NodePortService and the topology is
not single-replica; HostNetwork on a non-single-replica topology always gets
maxSurge = 0; and whenever b is false, any rolling-update record in the
output has maxSurge = 0. -/
theorem foo_affinity_iff_surge (DR : Ingress → Infrastructure → Int)
    (ci : IngressController) (dep : Deployment) (ing : Ingress) (infra : Infrastructure)
    (hA : dep.spec.template.spec.affinity = none)
    (hS : dep.spec.strategy.rollingUpdate = none) :
    ∀ d b, foo DR ci dep ing infra = (d, some b) →
      ((d.spec.template.spec.affinity ≠ none ↔ b = true) ∧
       (b = true ↔ (singleReplica ing infra = false ∧
          ∃ eps, ci.status.endpointPublishingStrategy = some eps ∧
            (eps.type = PrivateStrategyType ∨ eps.type = LoadBalancerServiceStrategyType ∨
             eps.type = NodePortServiceStrategyType))) ∧
       (∀ eps, ci.status.endpointPublishingStrategy = some eps →
          eps.type = HostNetworkStrategyType → singleReplica ing infra = false →
          ∃ ru, d.spec.strategy.rollingUpdate = some ru ∧
            ru.maxSurge = some (IntOrString.int 0)) ∧
       (b = false → ∀ ru, d.spec.strategy.rollingUpdate = some ru →
          ru.maxSurge = some (IntOrString.int 0))) := by
  intro d b hdb
  by_cases hsr : singleReplica ing infra = true
  · simp only [foo, hsr, if_true, Prod.mk.injEq, Option.some.injEq] at hdb
    obtain ⟨hd, hb⟩ := hdb
    subst hd
    subst hb
    refine ⟨?_, ?_, ?_, ?_⟩
    · simp [hA]
    · simp [hsr]
    · intro eps he hHN hfalse
      rw [hsr] at hfalse
      exact absurd hfalse (by decide)
    · intro _ ru hru
      rw [hS] at hru
      cases hru
  · have hsr' : singleReplica ing infra = false := by
      cases hx : singleReplica ing infra
      · rfl
      · exact absurd hx hsr
    cases heps : ci.status.endpointPublishingStrategy with
    | none =>
      simp [foo, hsr, heps, Prod.mk.injEq] at hdb
    | some eps =>
      by_cases hHN : eps.type = HostNetworkStrategyType
      · simp only [foo, hsr', heps, hHN, Bool.false_eq_true, if_false, if_true,
          Prod.mk.injEq, Option.some.injEq] at hdb
        obtain ⟨hd, hb⟩ := hdb
        subst hd
        subst hb
        refine ⟨?_, ?_, ?_, ?_⟩
        · simp [hA]
        · constructor
          · intro hx
            cases hx
          · rintro ⟨-, eps', he', hfam⟩
            injection he' with he'
            subst he'
            rw [hHN] at hfam
            rcases hfam with h | h | h <;> exact absurd h (by decide)
        · intro _ _ _ _
          exact ⟨_, rfl, rfl⟩
        · intro _ ru hru
          injection hru with hru
          subst hru
          rfl
      · by_cases hfam : eps.type = PrivateStrategyType ∨
            eps.type = LoadBalancerServiceStrategyType ∨
            eps.type = NodePortServiceStrategyType
        · simp only [foo, hsr', heps, Bool.false_eq_true, if_false, if_neg hHN, if_pos hfam,
            Prod.mk.injEq, Option.some.injEq] at hdb
          obtain ⟨hd, hb⟩ := hdb
          subst hd
          subst hb
          refine ⟨?_, ?_, ?_, ?_⟩
          · simp
          · exact ⟨fun _ => ⟨hsr', eps, rfl, hfam⟩, fun _ => rfl⟩
          · intro eps' he' hHN' _
            injection he' with he'
            subst he'
            exact absurd hHN' hHN
          · intro hb
            cases hb
        · simp only [foo, hsr', heps, Bool.false_eq_true, if_false, if_neg hHN, if_neg hfam,
            Prod.mk.injEq, Option.some.injEq] at hdb
          obtain ⟨hd, hb⟩ := hdb
          subst hd
          subst hb
          refine ⟨?_, ?_, ?_, ?_⟩
          · simp [hA]
          · constructor
            · intro hx
              cases hx
            · rintro ⟨-, eps', he', hfam'⟩
              injection he' with he'
              subst he'
              exact absurd hfam' hfam
          · intro eps' he' hHN' _
            injection he' with he'
            subst he'
            exact absurd hHN' hHN
          · intro _ ru hru
            rw [hS] at hru
            cases hru

/-- Witness for `foo_affinity_iff_surge` at a clean deployment and a
Private controller on a highly-available topology. -/
theorem foo_affinity_iff_surge_witness :
    exDep.spec.template.spec.affinity = none ∧
    exDep.spec.strategy.rollingUpdate = none ∧
    foo exDR (exCI PrivateStrategyType) exDep exIngress exInfraHA =
      ((foo exDR (exCI PrivateStrategyType) exDep exIngress exInfraHA).1, some true) ∧
    (((foo exDR (exCI PrivateStrategyType) exDep exIngress
        exInfraHA).1.spec.template.spec.affinity ≠ none ↔ true = true) ∧
     (true = true ↔ (singleReplica exIngress exInfraHA = false ∧
        ∃ eps, (exCI PrivateStrategyType).status.endpointPublishingStrategy = some eps ∧
          (eps.type = PrivateStrategyType ∨ eps.type = LoadBalancerServiceStrategyType ∨
           eps.type = NodePortServiceStrategyType))) ∧
     (∀ eps, (exCI PrivateStrategyType).status.endpointPublishingStrategy = some eps →
        eps.type = HostNetworkStrategyType → singleReplica exIngress exInfraHA = false →
        ∃ ru, (foo exDR (exCI PrivateStrategyType) exDep exIngress
            exInfraHA).1.spec.strategy.rollingUpdate = some ru ∧
          ru.maxSurge = some (IntOrString.int 0)) ∧
     (true = false → ∀ ru, (foo exDR (exCI PrivateStrategyType) exDep exIngress
          exInfraHA).1.spec.strategy.rollingUpdate = some ru →
        ru.maxSurge = some (IntOrString.int 0))) :=
  ⟨rfl, rfl, by decide,
    foo_affinity_iff_surge exDR (exCI PrivateStrategyType) exDep exIngress exInfraHA rfl rfl
      _ true (by decide)⟩

end ClusterIngress
